import Mathlib

/-!
Verification development for the device activity ingestion and daily
energy-balance engine (server `DeviceService` / `HealthKitService`).

Shallow embedding conventions:
* JS numbers are modelled as `ℚ`; optional/possibly-`undefined` values as
  `Option`.
* Calendar dates are modelled as `Int` day indices (date-only, as the code
  truncates timestamps to `YYYY-MM-DD`); a meal timestamp is a `ℚ` point on
  the same day axis, so day `d` covers `[d, d+1)`.
* Wall-clock instants (`new Date()` used for sync/update timestamps) are an
  explicit `now : Nat` parameter threaded through each operation.
* A date string that `new Date(...)` fails to parse is modelled as `none` in
  the payload's `date` field; a present date is modelled already parsed.
* `Math.random()` sample generation in the initial backfill is modelled as an
  explicit sample source `samples : Nat → ActivityData` (one draw per loop
  iteration).
* Prisma semantics: an `undefined` field in an `update` block is skipped
  (`prismaSet`), while in a `create` block it leaves the column absent.
  A thrown error is `Except.error`; `updateMany` never throws on zero matches.
-/

/- Rational arithmetic in Batteries is sealed behind `irreducible`
attributes; reopening it lets concrete ledger states below be evaluated by
`decide`. -/
unseal Rat.inv Rat.mul Rat.add Rat.sub Rat.ofScientific

namespace Calo

/-- JS truthiness of an optional string (`undefined` and `""` are falsy). -/
def strTruthy : Option String → Bool
  | some s => !s.isEmpty
  | none => false

/-- Prisma update-field semantics: `some v` sets the column, `none`
(`undefined` in the source) leaves the stored value unchanged. -/
def prismaSet (v old : Option ℚ) : Option ℚ :=
  match v with
  | some x => some x
  | none => old

/-- JS `x || 0` on an optional number: `undefined` (and `0` itself, the only
falsy number modelled) becomes `0`, which coincides with `Option.getD 0`. -/
def jsOrZero (x : Option ℚ) : ℚ := x.getD 0

/-- JS `Math.round`: round half toward positive infinity. -/
def jsRound (q : ℚ) : Int := (q + 1/2).floor

/-- Base64 alphabet used by `Buffer.toString("base64")`. -/
def base64Alphabet : List Char :=
  [ 'A','B','C','D','E','F','G','H','I','J','K','L','M','N','O','P','Q','R',
    'S','T','U','V','W','X','Y','Z','a','b','c','d','e','f','g','h','i','j',
    'k','l','m','n','o','p','q','r','s','t','u','v','w','x','y','z','0','1',
    '2','3','4','5','6','7','8','9','+','/' ]

/-- Character for a 6-bit group. -/
def base64Char (n : Nat) : Char := base64Alphabet.getD n '='

/-- Base64 encoding of a byte list, with `=` padding, as produced by
`Buffer.from(token).toString("base64")`. -/
def base64EncodeBytes : List Nat → List Char
  | [] => []
  | [b1] => [base64Char (b1 / 4), base64Char (b1 % 4 * 16), '=', '=']
  | [b1, b2] =>
      [base64Char (b1 / 4), base64Char (b1 % 4 * 16 + b2 / 16),
       base64Char (b2 % 16 * 4), '=']
  | b1 :: b2 :: b3 :: rest =>
      base64Char (b1 / 4) :: base64Char (b1 % 4 * 16 + b2 / 16) ::
      base64Char (b2 % 16 * 4 + b3 / 64) :: base64Char (b3 % 64) ::
      base64EncodeBytes rest

/-- Activity payload (`ActivityData`): every field may be absent
(`undefined`) in a caller-supplied payload. -/
structure ActivityData where
  steps : Option ℚ
  caloriesBurned : Option ℚ
  activeMinutes : Option ℚ
  bmr : Option ℚ
  heartRate : Option ℚ
  weight : Option ℚ
  bodyFat : Option ℚ
  sleepHours : Option ℚ
  distance : Option ℚ
deriving DecidableEq, Repr

/-- Bulk-sync payload item: `ActivityData & \x7b date: string \x7d`; a `none`
date models a string `new Date(...)` cannot parse (the per-item upsert then
throws). -/
structure DatedActivityData extends ActivityData where
  date : Option Int
deriving DecidableEq, Repr

/-- HealthKit payload (`HealthKitData`) as passed to `saveHealthData`; its
date is already validated by the caller so it is modelled parsed. -/
structure HealthKitData where
  steps : ℚ
  caloriesBurned : ℚ
  activeMinutes : ℚ
  heartRate : Option ℚ
  weight : Option ℚ
  distance : Option ℚ
  date : Int
deriving DecidableEq, Repr

/-- Untyped `deviceData: any` accepted by `HealthKitService.syncWithDevice`. -/
structure DeviceSyncData where
  date : Option Int
  steps : Option ℚ
  caloriesBurned : Option ℚ
  activeMinutes : Option ℚ
  heartRate : Option ℚ
  weight : Option ℚ
  distance : Option ℚ
deriving DecidableEq, Repr

/-- Opaque `raw_data` snapshot: whichever JSON payload the sync stored. -/
inductive RawData where
  | fromActivity (a : ActivityData)
  | fromDated (a : DatedActivityData)
  | fromHealthKit (h : HealthKitData)
deriving DecidableEq, Repr

/-- Row of `daily_activity_summary` (one ledger entry). -/
structure ActivityRecord where
  user_id : Nat
  device_id : Nat
  date : Int
  steps : ℚ
  calories_burned : ℚ
  active_minutes : ℚ
  bmr_estimate : ℚ
  heart_rate_avg : Option ℚ
  weight_kg : Option ℚ
  body_fat_percentage : Option ℚ
  sleep_hours : Option ℚ
  distance_km : Option ℚ
  source_device : Option String
  sync_timestamp : Nat
  created_at : Nat
  updated_at : Nat
  raw_data : RawData
deriving DecidableEq, Repr

/-- Row of `connected_device`. -/
structure ConnectedDevice where
  connected_device_id : Nat
  user_id : Nat
  device_name : String
  device_type : String
  connection_status : String
  last_sync_time : Option Nat
  is_primary_device : Bool
  access_token_encrypted : Option String
  refresh_token_encrypted : Option String
  token_expires_at : Option Nat
  created_at : Nat
  updated_at : Nat
deriving DecidableEq, Repr

/-- Row of `meal`, restricted to the fields `getDailyBalance` reads. -/
structure Meal where
  user_id : Nat
  created_at : ℚ
  calories : Option ℚ
deriving DecidableEq, Repr

/-- The persistence layer state visible to the embedded services. -/
structure DB where
  devices : List ConnectedDevice
  records : List ActivityRecord
  meals : List Meal
  nextDeviceId : Nat
deriving DecidableEq, Repr

/-- Balance classification values. -/
inductive BalanceStatus where
  | balanced
  | slight_imbalance
  | significant_imbalance
deriving DecidableEq, Repr

/-- Derived `DailyBalance` result. -/
structure DailyBalance where
  caloriesIn : Int
  caloriesOut : Int
  balance : Int
  balanceStatus : BalanceStatus
deriving DecidableEq, Repr

/-- Trend classification values. -/
inductive Trend where
  | increasing
  | decreasing
  | stable
deriving DecidableEq, Repr

namespace DeviceService

/-- Token encoding used by `DeviceService.encryptToken`: base64 of the UTF-8
bytes (`Buffer.from(token).toString("base64")`). -/
def encryptToken (token : String) : String :=
  String.mk (base64EncodeBytes (token.toUTF8.toList.map (fun b => b.toNat)))

/-- Token column value for `accessToken ? this.encryptToken(accessToken) :
null`. -/
def encTokenField (tok : Option String) : Option String :=
  match tok with
  | some t => if t.isEmpty then none else some (encryptToken t)
  | none => none

/-- Fixed vendor enumeration from `connectDevice`. -/
def validDeviceTypes : List String :=
  [ "APPLE_HEALTH", "GOOGLE_FIT", "FITBIT", "GARMIN", "WHOOP",
    "SAMSUNG_HEALTH", "POLAR", "SUUNTO", "WITHINGS", "OURA", "AMAZFIT",
    "HUAWEI_HEALTH" ]

/-- Prisma `findFirst` on `connected_device` with
`where \x7b connected_device_id, user_id \x7d`. -/
def findDevice (db : DB) (did uid : Nat) : Option ConnectedDevice :=
  db.devices.find? (fun d => d.connected_device_id == did && d.user_id == uid)

/-- Membership test for the composite ledger key
`user_id_device_id_date`. -/
def matchesKey (uid did : Nat) (d : Int) (r : ActivityRecord) : Bool :=
  r.user_id == uid && r.device_id == did && r.date == d

/-- The `update` block shared by `syncDeviceData` and `bulkSyncDeviceData`:
required numerics via `|| 0`, optional columns skipped when the payload
leaves them `undefined`, timestamps bumped, raw snapshot replaced.
`source_device` is not part of the update block. -/
def mergeFields (a : ActivityData) (raw : RawData) (now : Nat)
    (r : ActivityRecord) : ActivityRecord :=
  { r with
    steps := jsOrZero a.steps
    calories_burned := jsOrZero a.caloriesBurned
    active_minutes := jsOrZero a.activeMinutes
    bmr_estimate := jsOrZero a.bmr
    heart_rate_avg := prismaSet a.heartRate r.heart_rate_avg
    weight_kg := prismaSet a.weight r.weight_kg
    body_fat_percentage := prismaSet a.bodyFat r.body_fat_percentage
    sleep_hours := prismaSet a.sleepHours r.sleep_hours
    distance_km := prismaSet a.distance r.distance_km
    sync_timestamp := now
    updated_at := now
    raw_data := raw }

/-- The `create` block shared by `syncDeviceData` and `bulkSyncDeviceData`. -/
def createRecord (uid did : Nat) (d : Int) (a : ActivityData) (raw : RawData)
    (srcName : String) (now : Nat) : ActivityRecord :=
  { user_id := uid
    device_id := did
    date := d
    steps := jsOrZero a.steps
    calories_burned := jsOrZero a.caloriesBurned
    active_minutes := jsOrZero a.activeMinutes
    bmr_estimate := jsOrZero a.bmr
    heart_rate_avg := a.heartRate
    weight_kg := a.weight
    body_fat_percentage := a.bodyFat
    sleep_hours := a.sleepHours
    distance_km := a.distance
    source_device := some srcName
    sync_timestamp := now
    created_at := now
    updated_at := now
    raw_data := raw }

/-- Core of the ledger upsert on the stored record list: rewrite the row
with the composite key through the `update` block when it exists, append the
`create` block's row otherwise; the unique constraint means at most one row
can match. -/
def upsertRecords (uid did : Nat) (d : Int) (a : ActivityData)
    (raw : RawData) (srcName : String) (now : Nat)
    (l : List ActivityRecord) : List ActivityRecord × ActivityRecord :=
  match l.find? (matchesKey uid did d) with
  | some r0 =>
      (l.map
        (fun r => if matchesKey uid did d r then mergeFields a raw now r
                  else r),
       mergeFields a raw now r0)
  | none =>
      let r1 := createRecord uid did d a raw srcName now
      (l ++ [r1], r1)

/-- Prisma `dailyActivitySummary.upsert` keyed on
`user_id_device_id_date`, applied to the store. -/
def upsertActivitySummary (db : DB) (uid did : Nat) (d : Int)
    (a : ActivityData) (raw : RawData) (srcName : String) (now : Nat) :
    DB × ActivityRecord :=
  let res := upsertRecords uid did d a raw srcName now db.records
  ({ db with records := res.1 }, res.2)

/-- The guarded update function of the upsert's update arm. -/
def updArm (uid did : Nat) (d : Int) (a : ActivityData) (raw : RawData)
    (now : Nat) (r : ActivityRecord) : ActivityRecord :=
  if matchesKey uid did d r then mergeFields a raw now r else r

/-- The trailing `connectedDevice.update` of a sync: sets last-sync time,
status `CONNECTED`, and the update timestamp on the row with the given id. -/
def touchDevice (now : Nat) (did : Nat) (dev : ConnectedDevice) :
    ConnectedDevice :=
  if dev.connected_device_id == did then
    { dev with
      last_sync_time := some now
      connection_status := "CONNECTED"
      updated_at := now }
  else dev

/-- `DeviceService.syncDeviceData`: ownership check, single-day upsert keyed
on today, then device touch. As in the source, the record date is always
`today`; the payload carries no date. -/
def syncDeviceData (db : DB) (uid did : Nat) (a : ActivityData) (now : Nat)
    (today : Int) : Except String (DB × ActivityRecord) :=
  match findDevice db did uid with
  | none => .error "Failed to sync device data"
  | some dev =>
      let res := upsertActivitySummary db uid did today a (.fromActivity a)
        dev.device_name now
      .ok ({ res.1 with devices := res.1.devices.map (touchDevice now did) },
           res.2)

/-- One iteration of the `bulkSyncDeviceData` loop: a payload whose date
fails to parse makes the upsert throw, which the per-item `catch` absorbs;
otherwise the item is upserted at its own date and its record collected. -/
def bulkStep (uid did : Nat) (srcName : String) (now : Nat)
    (acc : DB × List ActivityRecord) (item : DatedActivityData) :
    DB × List ActivityRecord :=
  match item.date with
  | none => acc
  | some d =>
      let res := upsertActivitySummary acc.1 uid did d item.toActivityData
        (.fromDated item) srcName now
      (res.1, acc.2 ++ [res.2])

/-- `DeviceService.bulkSyncDeviceData`: ownership check, per-item isolated
upserts in caller order, then device touch; returns the successfully merged
records. -/
def bulkSyncDeviceData (db : DB) (uid did : Nat)
    (arr : List DatedActivityData) (now : Nat) :
    Except String (DB × List ActivityRecord) :=
  match findDevice db did uid with
  | none => .error "Failed to bulk sync device data"
  | some dev =>
      let res := arr.foldl (bulkStep uid did dev.device_name now) (db, [])
      .ok ({ res.1 with devices := res.1.devices.map (touchDevice now did) },
           res.2)

/-- `DeviceService.performInitialSync`: computes the trailing seven calendar
dates (today inclusive), then for each one draws a sample payload and calls
`syncDeviceData`, counting failures without rethrowing. The loop variable
`date` is never passed on: `syncDeviceData` keys every merge on `today`. -/
def performInitialSync (db : DB) (uid did : Nat) (deviceType : String)
    (samples : Nat → ActivityData) (now : Nat) (today : Int) : DB :=
  let dates : List Int := (List.range 7).map (fun k => today - 6 + (k : Int))
  (dates.enum).foldl
    (fun acc ie =>
      match syncDeviceData acc uid did (samples ie.1) now today with
      | .ok res => res.1
      | .error _ => acc)
    db

/-- `DeviceService.connectDevice`: vendor validation, (owner, device-type)
lookup, in-place update or creation (the source sets
`is_primary_device: true` on every create, with the comment "First device is
primary"), then the initial backfill, whose failures never surface. -/
def connectDevice (db : DB) (uid : Nat) (deviceType deviceName : String)
    (accessToken refreshToken : Option String) (samples : Nat → ActivityData)
    (now : Nat) (today : Int) : Except String (DB × ConnectedDevice) :=
  if !(validDeviceTypes.contains deviceType) then
    .error "Failed to connect device"
  else
    match db.devices.find?
        (fun d => d.user_id == uid && d.device_type == deviceType) with
    | some existing =>
        let upd := fun (d : ConnectedDevice) =>
          { d with
            device_name := deviceName
            connection_status := "CONNECTED"
            last_sync_time := some now
            access_token_encrypted := encTokenField accessToken
            refresh_token_encrypted := encTokenField refreshToken
            token_expires_at :=
              if strTruthy accessToken then some (now + 3600000) else none
            updated_at := now }
        let db1 := { db with
          devices := db.devices.map
            (fun d =>
              if d.connected_device_id == existing.connected_device_id then
                upd d
              else d) }
        let db2 := performInitialSync db1 uid existing.connected_device_id
          deviceType samples now today
        .ok (db2, upd existing)
    | none =>
        let newDevice : ConnectedDevice :=
          { connected_device_id := db.nextDeviceId
            user_id := uid
            device_name := deviceName
            device_type := deviceType
            connection_status := "CONNECTED"
            last_sync_time := some now
            is_primary_device := true
            access_token_encrypted := encTokenField accessToken
            refresh_token_encrypted := encTokenField refreshToken
            token_expires_at :=
              if strTruthy accessToken then some (now + 3600000) else none
            created_at := now
            updated_at := now }
        let db1 := { db with
          devices := db.devices ++ [newDevice]
          nextDeviceId := db.nextDeviceId + 1 }
        let db2 := performInitialSync db1 uid
          newDevice.connected_device_id deviceType samples now today
        .ok (db2, newDevice)

/-- `DeviceService.disconnectDevice`: ownership check, then status to
`DISCONNECTED` with all token material cleared; the row survives. -/
def disconnectDevice (db : DB) (uid did : Nat) (now : Nat) :
    Except String DB :=
  match findDevice db did uid with
  | none => .error "Failed to disconnect device"
  | some _ =>
      .ok { db with
        devices := db.devices.map
          (fun d =>
            if d.connected_device_id == did then
              { d with
                connection_status := "DISCONNECTED"
                access_token_encrypted := none
                refresh_token_encrypted := none
                token_expires_at := none
                updated_at := now }
            else d) }

/-- `DeviceService.updateDeviceTokens`: `updateMany` on
(`connected_device_id`, `user_id`); a falsy token argument leaves the
corresponding columns `undefined`, i.e. unchanged, while `updated_at` is
always set. -/
def updateDeviceTokens (db : DB) (uid did : Nat)
    (accessToken refreshToken : Option String) (now : Nat) : DB :=
  { db with
    devices := db.devices.map
      (fun d =>
        if d.connected_device_id == did && d.user_id == uid then
          { d with
            access_token_encrypted :=
              if strTruthy accessToken then encTokenField accessToken
              else d.access_token_encrypted
            refresh_token_encrypted :=
              if strTruthy refreshToken then encTokenField refreshToken
              else d.refresh_token_encrypted
            token_expires_at :=
              if strTruthy accessToken then some (now + 3600000)
              else d.token_expires_at
            updated_at := now }
        else d) }

/-- Calories consumed on day `d`: meals with `created_at` in
`[startOfDay, startOfDay + 1 day)`, calories defaulted through `|| 0`. -/
def mealCaloriesIn (db : DB) (uid : Nat) (d : Int) : ℚ :=
  (db.meals.filter
      (fun m => m.user_id == uid && decide ((d : ℚ) ≤ m.created_at) &&
        decide (m.created_at < (d : ℚ) + 1))).foldl
    (fun s m => s + jsOrZero m.calories) 0

/-- Prisma `findFirst` on the ledger for (`user_id`, `date`) ordered by
`sync_timestamp` descending: the most recently synced matching row, earliest
row winning ties. -/
def pickLatestActivity (db : DB) (uid : Nat) (d : Int) :
    Option ActivityRecord :=
  (db.records.filter (fun r => r.user_id == uid && r.date == d)).foldl
    (fun best r =>
      match best with
      | none => some r
      | some b => if b.sync_timestamp < r.sync_timestamp then some r else best)
    none

/-- `DeviceService.getDailyBalance`: meal calories in, activity calories out
(`calories_burned + bmr_estimate`), zero-guarded percentage, three-tier
classification, integer rounding; `null` only when no ledger row exists. -/
def getDailyBalance (db : DB) (uid : Nat) (d : Int) : Option DailyBalance :=
  let caloriesIn := mealCaloriesIn db uid d
  match pickLatestActivity db uid d with
  | none => none
  | some a =>
      let caloriesOut : ℚ := a.calories_burned + a.bmr_estimate
      let balance := caloriesIn - caloriesOut
      let balancePercent : ℚ :=
        if 0 < caloriesOut then |balance| / caloriesOut else 0
      let balanceStatus : BalanceStatus :=
        if balancePercent ≤ 1/10 then .balanced
        else if balancePercent ≤ 1/4 then .slight_imbalance
        else .significant_imbalance
      some
        { caloriesIn := jsRound caloriesIn
          caloriesOut := jsRound caloriesOut
          balance := jsRound balance
          balanceStatus := balanceStatus }

/-- `DeviceService.calculateTrend`: halve at the floor midpoint, average each
half, classify against a ten percent band around the first-half average. -/
def calculateTrend (values : List ℚ) : Trend :=
  if values.length < 2 then .stable
  else
    let firstHalf := values.take (values.length / 2)
    let secondHalf := values.drop (values.length / 2)
    let firstAvg := firstHalf.foldl (· + ·) 0 / (firstHalf.length : ℚ)
    let secondAvg := secondHalf.foldl (· + ·) 0 / (secondHalf.length : ℚ)
    let difference := secondAvg - firstAvg
    let threshold := firstAvg * (1/10)
    if threshold < difference then .increasing
    else if difference < -threshold then .decreasing
    else .stable

end DeviceService

namespace HealthKitService

/-- The HealthKit flavour of the ledger `update` block: it never touches
`bmr_estimate`, `body_fat_percentage` or `sleep_hours`. -/
def hkMergeFields (h : HealthKitData) (now : Nat) (r : ActivityRecord) :
    ActivityRecord :=
  { r with
    steps := h.steps
    calories_burned := h.caloriesBurned
    active_minutes := h.activeMinutes
    heart_rate_avg := prismaSet h.heartRate r.heart_rate_avg
    weight_kg := prismaSet h.weight r.weight_kg
    distance_km := prismaSet h.distance r.distance_km
    sync_timestamp := now
    updated_at := now }

/-- The HealthKit flavour of the ledger `create` block; columns the block
omits take their schema defaults. -/
def hkCreateRecord (uid did : Nat) (h : HealthKitData) (now : Nat) :
    ActivityRecord :=
  { user_id := uid
    device_id := did
    date := h.date
    steps := h.steps
    calories_burned := h.caloriesBurned
    active_minutes := h.activeMinutes
    bmr_estimate := 0
    heart_rate_avg := h.heartRate
    weight_kg := h.weight
    body_fat_percentage := none
    sleep_hours := none
    distance_km := h.distance
    source_device := some "HealthKit"
    sync_timestamp := now
    created_at := now
    updated_at := now
    raw_data := .fromHealthKit h }

/-- `HealthKitService.saveHealthData`: upsert on the composite ledger key
with the HealthKit field mapping. -/
def saveHealthData (db : DB) (uid did : Nat) (h : HealthKitData)
    (now : Nat) : DB × ActivityRecord :=
  match db.records.find? (DeviceService.matchesKey uid did h.date) with
  | some r0 =>
      ({ db with
          records := db.records.map
            (fun r =>
              if DeviceService.matchesKey uid did h.date r then
                hkMergeFields h now r
              else r) },
       hkMergeFields h now r0)
  | none =>
      let r1 := hkCreateRecord uid did h now
      ({ db with records := db.records ++ [r1] }, r1)

/-- The update arm of the `connectedDevice.upsert` in `syncWithDevice`. -/
def hkTouch (now : Nat) (d : ConnectedDevice) : ConnectedDevice :=
  { d with
    connection_status := "CONNECTED"
    last_sync_time := some now
    updated_at := now }

/-- Tail of `syncWithDevice` after the device upsert: when the payload has a
truthy date and a defined step count, save the health data with `|| 0`
defaults; return the upserted device either way. -/
def hkFinish (db1 : DB) (device : ConnectedDevice) (uid : Nat)
    (deviceData : DeviceSyncData) (now : Nat) : DB × ConnectedDevice :=
  match deviceData.date, deviceData.steps with
  | some d, some _ =>
      ((saveHealthData db1 uid device.connected_device_id
        { steps := jsOrZero deviceData.steps
          caloriesBurned := jsOrZero deviceData.caloriesBurned
          activeMinutes := jsOrZero deviceData.activeMinutes
          heartRate := deviceData.heartRate
          weight := deviceData.weight
          distance := deviceData.distance
          date := d } now).1,
       device)
  | _, _ => (db1, device)

/-- `HealthKitService.syncWithDevice`: `connectedDevice.upsert` on the
unique (`user_id`, `device_type`) key, then the conditional health-data
save. -/
def syncWithDevice (db : DB) (uid : Nat) (deviceType : String)
    (deviceData : DeviceSyncData) (now : Nat) : DB × ConnectedDevice :=
  match db.devices.find?
      (fun d => d.user_id == uid && d.device_type == deviceType) with
  | some existing =>
      hkFinish
        { db with
          devices := db.devices.map
            (fun (d : ConnectedDevice) =>
              if d.user_id == uid && d.device_type == deviceType then
                hkTouch now d
              else d) }
        (hkTouch now existing) uid deviceData now
  | none =>
      let newDevice : ConnectedDevice :=
        { connected_device_id := db.nextDeviceId
          user_id := uid
          device_name := deviceType
          device_type := deviceType
          connection_status := "CONNECTED"
          last_sync_time := some now
          is_primary_device := true
          access_token_encrypted := none
          refresh_token_encrypted := none
          token_expires_at := none
          created_at := now
          updated_at := now }
      hkFinish
        { db with
          devices := db.devices ++ [newDevice]
          nextDeviceId := db.nextDeviceId + 1 }
        newDevice uid deviceData now

end HealthKitService

/-- One server-side mutation, with the wall clock and today's date carried
alongside the request. -/
inductive Op where
  | connect (uid : Nat) (deviceType deviceName : String)
      (accessToken refreshToken : Option String)
      (samples : Nat → ActivityData) (now : Nat) (today : Int)
  | disconnect (uid did : Nat) (now : Nat)
  | syncOne (uid did : Nat) (a : ActivityData) (now : Nat) (today : Int)
  | bulkSync (uid did : Nat) (arr : List DatedActivityData) (now : Nat)
  | updateTokens (uid did : Nat) (accessToken refreshToken : Option String)
      (now : Nat)
  | hkSync (uid : Nat) (deviceType : String) (deviceData : DeviceSyncData)
      (now : Nat)

/-- Application of one operation; a thrown request leaves the store as the
operation left it, which for every error path in the source is untouched. -/
def applyOp (db : DB) : Op → DB
  | .connect uid t n a r s now today =>
      match DeviceService.connectDevice db uid t n a r s now today with
      | .ok res => res.1
      | .error _ => db
  | .disconnect uid did now =>
      match DeviceService.disconnectDevice db uid did now with
      | .ok db1 => db1
      | .error _ => db
  | .syncOne uid did a now today =>
      match DeviceService.syncDeviceData db uid did a now today with
      | .ok res => res.1
      | .error _ => db
  | .bulkSync uid did arr now =>
      match DeviceService.bulkSyncDeviceData db uid did arr now with
      | .ok res => res.1
      | .error _ => db
  | .updateTokens uid did a r now =>
      DeviceService.updateDeviceTokens db uid did a r now
  | .hkSync uid t dd now => (HealthKitService.syncWithDevice db uid t dd now).1

/-- Sequential execution of a request history. -/
def runOps (db : DB) (ops : List Op) : DB := ops.foldl applyOp db

/-- Average of a series half (`sum / count`), the quantity the trend rule
classifies with. -/
def halfAvg (l : List ℚ) : ℚ := l.sum / (l.length : ℚ)

/-- List-level registry invariant: at most one row per (owner, device-type)
pair. -/
def DevListUnique (l : List ConnectedDevice) : Prop :=
  ∀ uid : Nat, ∀ dtype : String,
    (l.filter
        (fun d => d.user_id == uid && d.device_type == dtype)).length ≤ 1

/-- Registry invariant: at most one device row per (owner, device-type). -/
def DeviceUnique (db : DB) : Prop := DevListUnique db.devices

/-! Concrete fixtures used by the closed theorems and witnesses below. -/

/-- Sample device-provided payload. -/
def exPayload : ActivityData :=
  { steps := some 8000
    caloriesBurned := some 300
    activeMinutes := some 45
    bmr := some 1800
    heartRate := some 70
    weight := some 70
    bodyFat := none
    sleepHours := none
    distance := some 3 }

/-- Deterministic stand-in for the backfill's random sample source. -/
def exSamples : Nat → ActivityData := fun _ => exPayload

/-- A connected FITBIT device owned by user 1. -/
def exDev : ConnectedDevice :=
  { connected_device_id := 1
    user_id := 1
    device_name := "My Watch"
    device_type := "FITBIT"
    connection_status := "CONNECTED"
    last_sync_time := none
    is_primary_device := true
    access_token_encrypted := none
    refresh_token_encrypted := none
    token_expires_at := none
    created_at := 0
    updated_at := 0 }

/-- Freshly connected state: one device, empty activity ledger. -/
def exDB1 : DB :=
  { devices := [exDev], records := [], meals := [], nextDeviceId := 2 }

/-- The empty store. -/
def emptyDB : DB :=
  { devices := [], records := [], meals := [], nextDeviceId := 0 }

/-- Ledger row for user 1 on day 0 whose calories-out total is zero. -/
def exRecZeroOut : ActivityRecord :=
  { user_id := 1
    device_id := 1
    date := 0
    steps := 0
    calories_burned := 0
    active_minutes := 0
    bmr_estimate := 0
    heart_rate_avg := none
    weight_kg := none
    body_fat_percentage := none
    sleep_hours := none
    distance_km := none
    source_device := some "My Watch"
    sync_timestamp := 3
    created_at := 3
    updated_at := 3
    raw_data := .fromActivity exPayload }

/-- Store containing only the zero-calories-out ledger row. -/
def exDBZeroOut : DB :=
  { devices := [exDev], records := [exRecZeroOut], meals := [],
    nextDeviceId := 2 }

/-- Ledger row for user 1 on day 0 with 2000 calories out. -/
def exRecOut2000 : ActivityRecord :=
  { exRecZeroOut with calories_burned := 500, bmr_estimate := 1500 }

/-- A 2500-calorie meal eaten by user 1 in the middle of day 0. -/
def exMeal : Meal := { user_id := 1, created_at := 1/2, calories := some 2500 }

/-- Store with one 2000-calories-out row and one 2500-calorie meal. -/
def exDBBal : DB :=
  { devices := [exDev], records := [exRecOut2000], meals := [exMeal],
    nextDeviceId := 2 }

/-- The ledger row `syncDeviceData` creates from `exPayload` at instant 5. -/
def exRecSynced : ActivityRecord :=
  { user_id := 1
    device_id := 1
    date := 0
    steps := 8000
    calories_burned := 300
    active_minutes := 45
    bmr_estimate := 1800
    heart_rate_avg := some 70
    weight_kg := some 70
    body_fat_percentage := none
    sleep_hours := none
    distance_km := some 3
    source_device := some "My Watch"
    sync_timestamp := 5
    created_at := 5
    updated_at := 5
    raw_data := .fromActivity exPayload }

/-- The device row after the instant-5 sync touch. -/
def exDevTouched : ConnectedDevice :=
  { exDev with last_sync_time := some 5, updated_at := 5 }

/-- The store after syncing `exPayload` into `exDB1` at instant 5. -/
def exDBSynced : DB :=
  { devices := [exDevTouched], records := [exRecSynced], meals := [],
    nextDeviceId := 2 }

/-- Second payload: new step count, heart rate left absent. -/
def exP2 : ActivityData :=
  { exPayload with steps := some 9000, heartRate := none }

/-- The ledger row after merging `exP2` over `exRecSynced` at instant 6. -/
def exRec26 : ActivityRecord :=
  { exRecSynced with
    steps := 9000
    sync_timestamp := 6
    updated_at := 6
    raw_data := .fromActivity exP2 }

/-- The device row after the instant-6 sync touch. -/
def exDevTouched6 : ConnectedDevice :=
  { exDev with last_sync_time := some 6, updated_at := 6 }

/-- The store after syncing `exPayload` then `exP2`. -/
def exDB26 : DB :=
  { devices := [exDevTouched6], records := [exRec26], meals := [],
    nextDeviceId := 2 }

/-- Bulk item for day -1 with a parseable date. -/
def exBulkItemA : DatedActivityData :=
  { toActivityData := exPayload, date := some (-1) }

/-- Malformed bulk item: its date string does not parse. -/
def exBulkItemBad : DatedActivityData :=
  { toActivityData := exP2, date := none }

/-- Bulk item for day 0 with a parseable date. -/
def exBulkItemB : DatedActivityData :=
  { toActivityData := exP2, date := some 0 }

/-- A bulk payload whose middle item is malformed. -/
def exBulk : List DatedActivityData :=
  [exBulkItemA, exBulkItemBad, exBulkItemB]

/-- The device row after the instant-99 token-update touch. -/
def exDevTok : ConnectedDevice := { exDev with updated_at := 99 }

/-! General list helpers. -/

/-- Lookup commutes with a map that does not disturb the predicate. -/
theorem find?_map_pred {α : Type} (l : List α) (f : α → α) (p : α → Bool)
    (hp : ∀ x, p (f x) = p x) : (l.map f).find? p = (l.find? p).map f := by
  induction l with
  | nil => rfl
  | cons x xs ih =>
      cases hx : p x
      · have hfx : p (f x) = false := by rw [hp x, hx]
        rw [List.map_cons, List.find?_cons_of_neg _ (by simp [hfx]),
          List.find?_cons_of_neg _ (by simp [hx]), ih]
      · have hfx : p (f x) = true := by rw [hp x]; exact hx
        rw [List.map_cons, List.find?_cons_of_pos _ hfx,
          List.find?_cons_of_pos _ hx]
        rfl

/-- A guarded rewrite is the identity on a list with no matching element. -/
theorem map_if_of_none {α : Type} (l : List α) (p : α → Bool) (f : α → α)
    (h : l.find? p = none) :
    l.map (fun x => if p x then f x else x) = l := by
  have h' := List.find?_eq_none.mp h
  calc l.map (fun x => if p x then f x else x)
      = l.map id := List.map_congr_left (by intro x hx; simp [h' x hx])
    _ = l := List.map_id l

/-- Mapping a pointwise-idempotent function twice equals mapping it once. -/
theorem map_idem_of_pointwise {α : Type} (l : List α) (f : α → α)
    (h : ∀ x ∈ l, f (f x) = f x) : (l.map f).map f = l.map f := by
  rw [List.map_map]
  exact List.map_congr_left (by intro x hx; simp [Function.comp, h x hx])

/-! Algebra of the merge and upsert operations. -/

/-- Re-applying the same Prisma update value is a no-op. -/
theorem prismaSet_idem (v o : Option ℚ) :
    prismaSet v (prismaSet v o) = prismaSet v o := by
  cases v <;> rfl

/-- Updating a column with its current value is a no-op. -/
theorem prismaSet_self (v : Option ℚ) : prismaSet v v = v := by
  cases v <;> rfl

namespace DeviceService

/-- The update block keeps the composite key. -/
theorem matchesKey_mergeFields (uid did : Nat) (d : Int) (a : ActivityData)
    (raw : RawData) (now : Nat) (r : ActivityRecord) :
    matchesKey uid did d (mergeFields a raw now r) = matchesKey uid did d r :=
  rfl

/-- The update block is idempotent at a fixed instant. -/
theorem mergeFields_idem (a : ActivityData) (raw : RawData) (now : Nat)
    (r : ActivityRecord) :
    mergeFields a raw now (mergeFields a raw now r) =
      mergeFields a raw now r := by
  simp [mergeFields, prismaSet_idem]

/-- Updating a freshly created row with the payload that created it is a
no-op at a fixed instant. -/
theorem mergeFields_createRecord (uid did : Nat) (d : Int)
    (a : ActivityData) (raw : RawData) (srcName : String) (now : Nat) :
    mergeFields a raw now (createRecord uid did d a raw srcName now) =
      createRecord uid did d a raw srcName now := by
  simp [mergeFields, createRecord, prismaSet_self]

/-- A created row matches its own composite key. -/
theorem matchesKey_createRecord (uid did : Nat) (d : Int)
    (a : ActivityData) (raw : RawData) (srcName : String) (now : Nat) :
    matchesKey uid did d (createRecord uid did d a raw srcName now) = true :=
  by simp [matchesKey, createRecord]

/-- Unfolding of the upsert core when the key is present. -/
theorem upsertRecords_of_some (uid did : Nat) (d : Int) (a : ActivityData)
    (raw : RawData) (s : String) (now : Nat) (l : List ActivityRecord)
    (r0 : ActivityRecord) (h : l.find? (matchesKey uid did d) = some r0) :
    upsertRecords uid did d a raw s now l =
      (l.map
        (fun r => if matchesKey uid did d r then mergeFields a raw now r
                  else r),
       mergeFields a raw now r0) := by
  unfold upsertRecords
  rw [h]

/-- Unfolding of the upsert core when the key is absent. -/
theorem upsertRecords_of_none (uid did : Nat) (d : Int) (a : ActivityData)
    (raw : RawData) (s : String) (now : Nat) (l : List ActivityRecord)
    (h : l.find? (matchesKey uid did d) = none) :
    upsertRecords uid did d a raw s now l =
      (l ++ [createRecord uid did d a raw s now],
       createRecord uid did d a raw s now) := by
  unfold upsertRecords
  rw [h]

/-- The update arm preserves the composite key. -/
theorem matchesKey_updArm (uid did : Nat) (d : Int) (a : ActivityData)
    (raw : RawData) (now : Nat) (r : ActivityRecord) :
    matchesKey uid did d (updArm uid did d a raw now r) =
      matchesKey uid did d r := by
  unfold updArm
  by_cases hx : matchesKey uid did d r <;> simp [hx, matchesKey_mergeFields]

/-- The update arm is idempotent at a fixed instant. -/
theorem updArm_idem (uid did : Nat) (d : Int) (a : ActivityData)
    (raw : RawData) (now : Nat) (r : ActivityRecord) :
    updArm uid did d a raw now (updArm uid did d a raw now r) =
      updArm uid did d a raw now r := by
  unfold updArm
  by_cases hx : matchesKey uid did d r
  · simp [hx, matchesKey_mergeFields, mergeFields_idem]
  · simp [hx]

/-- Re-running the upsert core with the same payload at the same instant
leaves the record list and the returned row unchanged (the source label is
irrelevant the second time: the row now exists, so the update arm runs). -/
theorem upsertRecords_idem (uid did : Nat) (d : Int) (a : ActivityData)
    (raw : RawData) (s1 s2 : String) (now : Nat) (l : List ActivityRecord) :
    upsertRecords uid did d a raw s2 now
        (upsertRecords uid did d a raw s1 now l).1 =
      upsertRecords uid did d a raw s1 now l := by
  cases h : l.find? (matchesKey uid did d) with
  | some r0 =>
      rw [upsertRecords_of_some uid did d a raw s1 now l r0 h]
      have hfind : (l.map (updArm uid did d a raw now)).find?
          (matchesKey uid did d) = some (updArm uid did d a raw now r0) := by
        rw [find?_map_pred l _ _ (matchesKey_updArm uid did d a raw now), h]
        rfl
      have hk0 : matchesKey uid did d r0 = true := List.find?_some h
      rw [show (fun r => if matchesKey uid did d r then mergeFields a raw now r
            else r) = updArm uid did d a raw now from rfl]
      rw [upsertRecords_of_some uid did d a raw s2 now _ _ hfind]
      rw [show (fun r => if matchesKey uid did d r then mergeFields a raw now r
            else r) = updArm uid did d a raw now from rfl]
      rw [map_idem_of_pointwise _ _
        (fun x _ => updArm_idem uid did d a raw now x)]
      have : mergeFields a raw now (updArm uid did d a raw now r0) =
          mergeFields a raw now r0 := by
        unfold updArm
        rw [if_pos hk0, mergeFields_idem]
      rw [this]
  | none =>
      rw [upsertRecords_of_none uid did d a raw s1 now l h]
      have hk1 : matchesKey uid did d
          (createRecord uid did d a raw s1 now) = true :=
        matchesKey_createRecord uid did d a raw s1 now
      have hfind : (l ++ [createRecord uid did d a raw s1 now]).find?
          (matchesKey uid did d) =
          some (createRecord uid did d a raw s1 now) := by
        rw [List.find?_append, h]
        simp [List.find?_cons_of_pos _ hk1]
      rw [upsertRecords_of_some uid did d a raw s2 now _ _ hfind]
      rw [show (fun r => if matchesKey uid did d r then mergeFields a raw now r
            else r) = updArm uid did d a raw now from rfl]
      rw [List.map_append]
      rw [show (l.map (updArm uid did d a raw now)) = l from
        map_if_of_none l _ _ h]
      have hcr : updArm uid did d a raw now
          (createRecord uid did d a raw s1 now) =
          createRecord uid did d a raw s1 now := by
        unfold updArm
        rw [if_pos hk1, mergeFields_createRecord]
      simp only [List.map_cons, List.map_nil, hcr]
      rw [mergeFields_createRecord]

/-- The id of the touched device row is unchanged. -/
theorem touchDevice_id (now did : Nat) (x : ConnectedDevice) :
    (touchDevice now did x).connected_device_id = x.connected_device_id := by
  unfold touchDevice
  split <;> rfl

/-- The owner of the touched device row is unchanged. -/
theorem touchDevice_user (now did : Nat) (x : ConnectedDevice) :
    (touchDevice now did x).user_id = x.user_id := by
  unfold touchDevice
  split <;> rfl

/-- Touching a device row twice at the same instant equals touching once. -/
theorem touchDevice_idem (now did : Nat) (x : ConnectedDevice) :
    touchDevice now did (touchDevice now did x) = touchDevice now did x := by
  by_cases h : x.connected_device_id == did <;> simp [touchDevice, h]

/-- Device lookup commutes with the post-sync touch. -/
theorem findDevice_map_touch (l : List ConnectedDevice) (now did uid : Nat) :
    (l.map (touchDevice now did)).find?
        (fun d => d.connected_device_id == did && d.user_id == uid) =
      (l.find? (fun d => d.connected_device_id == did && d.user_id == uid)
        ).map (touchDevice now did) :=
  find?_map_pred l _ _
    (by intro x; rw [touchDevice_id, touchDevice_user])

/-- A payload with an unparseable date leaves the accumulator untouched:
the thrown upsert is caught and the item skipped. -/
theorem bulkStep_none (uid did : Nat) (s : String) (now : Nat)
    (acc : DB × List ActivityRecord) (item : DatedActivityData)
    (hx : item.date = none) : bulkStep uid did s now acc item = acc := by
  unfold bulkStep
  rw [hx]

/-- The bulk fold ignores exactly the items whose dates fail to parse. -/
theorem foldl_bulkStep_filter (uid did : Nat) (s : String) (now : Nat) :
    ∀ (arr : List DatedActivityData) (acc : DB × List ActivityRecord),
      arr.foldl (bulkStep uid did s now) acc =
        (arr.filter (fun it => it.date.isSome)).foldl
          (bulkStep uid did s now) acc := by
  intro arr
  induction arr with
  | nil => intro acc; rfl
  | cons x xs ih =>
      intro acc
      cases hx : x.date with
      | none =>
          rw [List.foldl_cons, bulkStep_none uid did s now acc x hx]
          rw [show (x :: xs).filter (fun it => it.date.isSome) =
            xs.filter (fun it => it.date.isSome) from by
              simp [List.filter_cons, hx]]
          exact ih acc
      | some d =>
          rw [show (x :: xs).filter (fun it => it.date.isSome) =
            x :: xs.filter (fun it => it.date.isSome) from by
              simp [List.filter_cons, hx]]
          rw [List.foldl_cons, List.foldl_cons]
          exact ih _

/-- The bulk fold returns one merged record per parseable item. -/
theorem foldl_bulkStep_length (uid did : Nat) (s : String) (now : Nat) :
    ∀ (arr : List DatedActivityData) (acc : DB × List ActivityRecord),
      ((arr.foldl (bulkStep uid did s now) acc).2).length =
        acc.2.length + (arr.filter (fun it => it.date.isSome)).length := by
  intro arr
  induction arr with
  | nil => intro acc; simp
  | cons x xs ih =>
      intro acc
      cases hx : x.date with
      | none =>
          rw [List.foldl_cons, bulkStep_none uid did s now acc x hx]
          rw [show (x :: xs).filter (fun it => it.date.isSome) =
            xs.filter (fun it => it.date.isSome) from by
              simp [List.filter_cons, hx]]
          exact ih acc
      | some d =>
          rw [show (x :: xs).filter (fun it => it.date.isSome) =
            x :: xs.filter (fun it => it.date.isSome) from by
              simp [List.filter_cons, hx]]
          rw [List.foldl_cons]
          have hstep : (bulkStep uid did s now acc x).2 =
              acc.2 ++ [(upsertRecords uid did d x.toActivityData
                (.fromDated x) s now acc.1.records).2] := by
            unfold bulkStep
            rw [hx]
            rfl
          rw [ih (bulkStep uid did s now acc x), hstep]
          simp
          omega

/-- Unfolding of `bulkSyncDeviceData` when the ownership check succeeds. -/
theorem bulkSyncDeviceData_found (db : DB) (uid did : Nat)
    (arr : List DatedActivityData) (now : Nat) (dev : ConnectedDevice)
    (hdev : findDevice db did uid = some dev) :
    bulkSyncDeviceData db uid did arr now =
      .ok ({ (arr.foldl (bulkStep uid did dev.device_name now) (db, [])).1
              with
              devices := ((arr.foldl (bulkStep uid did dev.device_name now)
                (db, [])).1.devices).map (touchDevice now did) },
           (arr.foldl (bulkStep uid did dev.device_name now) (db, [])).2) := by
  unfold bulkSyncDeviceData
  rw [hdev]

/-- Unfolding of `syncDeviceData` when the ownership check fails. -/
theorem syncDeviceData_not_found (db : DB) (uid did : Nat)
    (a : ActivityData) (now : Nat) (today : Int)
    (hdev : findDevice db did uid = none) :
    syncDeviceData db uid did a now today =
      .error "Failed to sync device data" := by
  unfold syncDeviceData
  rw [hdev]

/-- Unfolding of `syncDeviceData` when the ownership check succeeds. -/
theorem syncDeviceData_found (db : DB) (uid did : Nat) (a : ActivityData)
    (now : Nat) (today : Int) (dev : ConnectedDevice)
    (hdev : findDevice db did uid = some dev) :
    syncDeviceData db uid did a now today =
      .ok ({ db with
              records := (upsertRecords uid did today a (.fromActivity a)
                dev.device_name now db.records).1
              devices := db.devices.map (touchDevice now did) },
           (upsertRecords uid did today a (.fromActivity a) dev.device_name
             now db.records).2) := by
  unfold syncDeviceData upsertActivitySummary
  rw [hdev]

end DeviceService

/-! Claim theorems. -/

/-- C1 (code bug): after `performInitialSync` on a freshly connected device,
the ledger holds exactly one record, keyed (owner, device, today) — the loop
generates the seven trailing dates but `syncDeviceData` takes no date and
keys every merge on today, so the seven sample payloads all collapse into
today's record instead of one record per generated date. -/
theorem initialBackfill_merges_into_today :
    ((DeviceService.performInitialSync exDB1 1 1 "FITBIT" exSamples 5 0
        ).records.map (fun r => (r.user_id, r.device_id, r.date)))
      = [(1, 1, 0)] ∧
    exDB1.records = [] := by
  constructor <;> decide

/-- C2 (code bug): when a ledger row exists for the date but its calories
out (`calories_burned + bmr_estimate`) is zero, `getDailyBalance` guards the
division by substituting percentage 0 and therefore classifies the day as
"balanced" instead of treating it as no data, contrary to the spec. -/
theorem getDailyBalance_zero_caloriesOut_balanced :
    exRecZeroOut.calories_burned + exRecZeroOut.bmr_estimate = 0 ∧
    DeviceService.getDailyBalance exDBZeroOut 1 0 =
      some { caloriesIn := 0, caloriesOut := 0, balance := 0,
             balanceStatus := .balanced } := by
  constructor <;> decide

/-- C4 (code bug): `connectDevice` for a user who already owns a device of a
different type creates the new device with `is_primary_device := true` — the
create block hardcodes the flag despite its "first device is primary"
comment, so a non-first device is still marked primary. -/
theorem connectDevice_second_device_primary :
    ∃ db2 nd,
      DeviceService.connectDevice exDB1 1 "GARMIN" "My Garmin" none none
        exSamples 5 0 = .ok (db2, nd) ∧
      exDB1.devices.length = 1 ∧
      exDB1.devices.map (fun d => d.user_id) = [1] ∧
      db2.devices.length = 2 ∧
      nd.is_primary_device = true := by
  refine ⟨_, _, rfl, ?_, ?_, ?_, ?_⟩ <;> decide

/-- Unfolding of `getDailyBalance` when the ledger lookup finds a row. -/
theorem getDailyBalance_eq_of_pick (db : DB) (uid : Nat) (d : Int)
    (a : ActivityRecord)
    (ha : DeviceService.pickLatestActivity db uid d = some a) :
    DeviceService.getDailyBalance db uid d =
      some
        { caloriesIn := jsRound (DeviceService.mealCaloriesIn db uid d)
          caloriesOut := jsRound (a.calories_burned + a.bmr_estimate)
          balance := jsRound (DeviceService.mealCaloriesIn db uid d -
            (a.calories_burned + a.bmr_estimate))
          balanceStatus :=
            if (if 0 < a.calories_burned + a.bmr_estimate then
                  |DeviceService.mealCaloriesIn db uid d -
                      (a.calories_burned + a.bmr_estimate)| /
                    (a.calories_burned + a.bmr_estimate)
                else 0) ≤ 1/10 then .balanced
            else if (if 0 < a.calories_burned + a.bmr_estimate then
                  |DeviceService.mealCaloriesIn db uid d -
                      (a.calories_burned + a.bmr_estimate)| /
                    (a.calories_burned + a.bmr_estimate)
                else 0) ≤ 1/4 then .slight_imbalance
            else .significant_imbalance } := by
  unfold DeviceService.getDailyBalance
  rw [ha]

/-- C3: a date with no ledger row yields `none` (an explicit no-data result),
and when the chosen row has positive calories out the classification follows
the unrounded ratio `|caloriesIn - caloriesOut| / caloriesOut` with the 10
and 25 percent thresholds boundary-inclusive, the numeric outputs rounded to
integers. -/
theorem getDailyBalance_spec (db : DB) (uid : Nat) (d : Int) :
    ((∀ r ∈ db.records, ¬(r.user_id = uid ∧ r.date = d)) →
      DeviceService.getDailyBalance db uid d = none) ∧
    (∀ a, DeviceService.pickLatestActivity db uid d = some a →
      0 < a.calories_burned + a.bmr_estimate →
      ∃ r, DeviceService.getDailyBalance db uid d = some r ∧
        r.caloriesIn = jsRound (DeviceService.mealCaloriesIn db uid d) ∧
        r.caloriesOut = jsRound (a.calories_burned + a.bmr_estimate) ∧
        r.balance = jsRound (DeviceService.mealCaloriesIn db uid d -
          (a.calories_burned + a.bmr_estimate)) ∧
        (r.balanceStatus = .balanced ↔
          |DeviceService.mealCaloriesIn db uid d -
              (a.calories_burned + a.bmr_estimate)| /
            (a.calories_burned + a.bmr_estimate) ≤ 1/10) ∧
        (r.balanceStatus = .slight_imbalance ↔
          (1/10 < |DeviceService.mealCaloriesIn db uid d -
              (a.calories_burned + a.bmr_estimate)| /
            (a.calories_burned + a.bmr_estimate) ∧
           |DeviceService.mealCaloriesIn db uid d -
              (a.calories_burned + a.bmr_estimate)| /
            (a.calories_burned + a.bmr_estimate) ≤ 1/4)) ∧
        (r.balanceStatus = .significant_imbalance ↔
          1/4 < |DeviceService.mealCaloriesIn db uid d -
              (a.calories_burned + a.bmr_estimate)| /
            (a.calories_burned + a.bmr_estimate))) := by
  constructor
  · intro h
    have hfil : db.records.filter
        (fun r => r.user_id == uid && r.date == d) = [] := by
      rw [List.filter_eq_nil]
      intro r hr
      simp only [Bool.and_eq_true, beq_iff_eq, not_and]
      intro h1 h2
      exact h r hr ⟨h1, h2⟩
    unfold DeviceService.getDailyBalance DeviceService.pickLatestActivity
    rw [hfil]
    rfl
  · intro a ha hpos
    rw [getDailyBalance_eq_of_pick db uid d a ha]
    rw [if_pos hpos]
    set p : ℚ := |DeviceService.mealCaloriesIn db uid d -
        (a.calories_burned + a.bmr_estimate)| /
      (a.calories_burned + a.bmr_estimate) with hp
    by_cases h1 : p ≤ 1/10
    · refine ⟨_, by rw [if_pos h1], rfl, rfl, rfl, ?_, ?_, ?_⟩
      · exact iff_of_true rfl h1
      · exact iff_of_false (by simp) (fun hc => absurd h1 (not_le.mpr hc.1))
      · exact iff_of_false (by simp) (fun hc => absurd h1 (by linarith))
    · by_cases h2 : p ≤ 1/4
      · refine ⟨_, by rw [if_neg h1, if_pos h2], rfl, rfl, rfl, ?_, ?_, ?_⟩
        · exact iff_of_false (by simp) (fun hc => h1 hc)
        · exact iff_of_true rfl ⟨lt_of_not_le h1, h2⟩
        · exact iff_of_false (by simp) (fun hc => absurd h2 (not_le.mpr hc))
      · refine ⟨_, by rw [if_neg h1, if_neg h2], rfl, rfl, rfl, ?_, ?_, ?_⟩
        · exact iff_of_false (by simp) (fun hc => h1 hc)
        · exact iff_of_false (by simp) (fun hc => h2 hc.2)
        · exact iff_of_true rfl (lt_of_not_le h2)

/-- C5: re-running `syncDeviceData` with an identical payload for the same
(owner, device) immediately after a successful sync returns the same merged
record and leaves the store exactly as the first call left it; the
`new Date()` instants are an explicit `now` argument, identical across the
two back-to-back calls. -/
theorem syncDeviceData_idempotent (db : DB) (uid did : Nat)
    (a : ActivityData) (now : Nat) (today : Int) (db1 : DB)
    (r : ActivityRecord)
    (h : DeviceService.syncDeviceData db uid did a now today = .ok (db1, r)) :
    DeviceService.syncDeviceData db1 uid did a now today = .ok (db1, r) := by
  cases hdev : DeviceService.findDevice db did uid with
  | none =>
      rw [DeviceService.syncDeviceData_not_found db uid did a now today hdev]
        at h
      exact absurd h (by simp)
  | some dev =>
      rw [DeviceService.syncDeviceData_found db uid did a now today dev hdev]
        at h
      simp only [Except.ok.injEq, Prod.mk.injEq] at h
      obtain ⟨hX, hY⟩ := h
      subst hX
      subst hY
      have hdev2 : DeviceService.findDevice
          { db with
            records := (DeviceService.upsertRecords uid did today a
              (.fromActivity a) dev.device_name now db.records).1
            devices := db.devices.map (DeviceService.touchDevice now did) }
          did uid = some (DeviceService.touchDevice now did dev) := by
        show (db.devices.map (DeviceService.touchDevice now did)).find? _ = _
        rw [DeviceService.findDevice_map_touch]
        have : db.devices.find?
            (fun d => d.connected_device_id == did && d.user_id == uid) =
            some dev := hdev
        rw [this]
        rfl
      rw [DeviceService.syncDeviceData_found _ uid did a now today _ hdev2]
      have hname : (DeviceService.touchDevice now did dev).device_name =
          dev.device_name := by
        unfold DeviceService.touchDevice
        split <;> rfl
      have hrec : DeviceService.upsertRecords uid did today a
          (.fromActivity a)
          (DeviceService.touchDevice now did dev).device_name now
          (DeviceService.upsertRecords uid did today a (.fromActivity a)
            dev.device_name now db.records).1 =
          DeviceService.upsertRecords uid did today a (.fromActivity a)
            dev.device_name now db.records := by
        rw [hname]
        exact DeviceService.upsertRecords_idem uid did today a
          (.fromActivity a) dev.device_name dev.device_name now db.records
      have hdevs : (db.devices.map (DeviceService.touchDevice now did)).map
          (DeviceService.touchDevice now did) =
          db.devices.map (DeviceService.touchDevice now did) :=
        map_idem_of_pointwise _ _
          (fun x _ => DeviceService.touchDevice_idem now did x)
      simp only [hrec, hdevs]

/-- Witness for C3, instantiated at the spec's own boundary example: 2500
calories in against 2000 out is exactly 25 percent and classifies as
slight_imbalance. -/
theorem getDailyBalance_spec_witness :
    DeviceService.getDailyBalance exDBBal 1 0 =
      some { caloriesIn := 2500, caloriesOut := 2000, balance := 500,
             balanceStatus := .slight_imbalance } := by
  obtain ⟨r, hr, h1, h2, h3, hb, hs, hsig⟩ :=
    (getDailyBalance_spec exDBBal 1 0).2 exRecOut2000 (by decide) (by decide)
  have hstat : r.balanceStatus = .slight_imbalance :=
    hs.mpr ⟨by decide, by decide⟩
  rw [hr]
  congr 1
  rcases r with ⟨ci, co, b, st⟩
  dsimp only at h1 h2 h3 hstat
  rw [h1, h2, h3, hstat]
  decide

/-- Witness for C5: the concrete first sync succeeds and the theorem yields
the unchanged second result. -/
theorem syncDeviceData_idempotent_witness :
    DeviceService.syncDeviceData exDB1 1 1 exPayload 5 0 =
      .ok (exDBSynced, exRecSynced) ∧
    DeviceService.syncDeviceData exDBSynced 1 1 exPayload 5 0 =
      .ok (exDBSynced, exRecSynced) :=
  ⟨by rfl,
   syncDeviceData_idempotent exDB1 1 1 exPayload 5 0 exDBSynced exRecSynced
     (by rfl)⟩

/-- C6 counterexample: after syncing a payload with heart rate 70 and then a
payload that omits heart rate entirely, the stored row still carries heart
rate 70 — not the second payload's (absent) value — because the update block
skips columns the payload leaves undefined. -/
theorem sync_overwrite_counterexample :
    ∃ db1 r1 db2 r2,
      DeviceService.syncDeviceData exDB1 1 1 exPayload 5 0 = .ok (db1, r1) ∧
      DeviceService.syncDeviceData db1 1 1 exP2 6 0 = .ok (db2, r2) ∧
      exP2.heartRate = none ∧
      r2.steps = 9000 ∧
      r2.heart_rate_avg = some 70 ∧
      db2.records.map (fun r => r.heart_rate_avg) = [some 70] := by
  refine ⟨_, _, _, _, rfl, rfl, ?_, ?_, ?_, ?_⟩ <;> decide

/-- C6 as amended: for a key with no prior row, syncing P1 then P2 leaves a
single row for the key whose required numeric fields equal P2's values
(absent ones defaulted to 0, never averaged or summed with P1) and whose
raw snapshot is P2's; each optional numeric field holds P2's value when P2
supplies it and retains P1's value when P2 omits it (`prismaSet`). -/
theorem sync_last_write_wins_amended (db : DB) (uid did : Nat)
    (p1 p2 : ActivityData) (now1 now2 : Nat) (today : Int) (db1 db2 : DB)
    (r1 r2 : ActivityRecord)
    (hini : db.records.find? (DeviceService.matchesKey uid did today) = none)
    (h1 : DeviceService.syncDeviceData db uid did p1 now1 today =
      .ok (db1, r1))
    (h2 : DeviceService.syncDeviceData db1 uid did p2 now2 today =
      .ok (db2, r2)) :
    r2.steps = jsOrZero p2.steps ∧
    r2.calories_burned = jsOrZero p2.caloriesBurned ∧
    r2.active_minutes = jsOrZero p2.activeMinutes ∧
    r2.bmr_estimate = jsOrZero p2.bmr ∧
    r2.heart_rate_avg = prismaSet p2.heartRate p1.heartRate ∧
    r2.weight_kg = prismaSet p2.weight p1.weight ∧
    r2.body_fat_percentage = prismaSet p2.bodyFat p1.bodyFat ∧
    r2.sleep_hours = prismaSet p2.sleepHours p1.sleepHours ∧
    r2.distance_km = prismaSet p2.distance p1.distance ∧
    r2.raw_data = .fromActivity p2 ∧
    db2.records.filter (DeviceService.matchesKey uid did today) = [r2] := by
  cases hdev : DeviceService.findDevice db did uid with
  | none =>
      rw [DeviceService.syncDeviceData_not_found db uid did p1 now1 today
        hdev] at h1
      exact absurd h1 (by simp)
  | some dev =>
      rw [DeviceService.syncDeviceData_found db uid did p1 now1 today dev
        hdev] at h1
      rw [DeviceService.upsertRecords_of_none uid did today p1
        (.fromActivity p1) dev.device_name now1 db.records hini] at h1
      simp only [Except.ok.injEq, Prod.mk.injEq] at h1
      obtain ⟨hdb1, hr1⟩ := h1
      subst hdb1
      subst hr1
      have hdev2 : DeviceService.findDevice
          { db with
            records := db.records ++ [DeviceService.createRecord uid did
              today p1 (.fromActivity p1) dev.device_name now1]
            devices := db.devices.map (DeviceService.touchDevice now1 did) }
          did uid = some (DeviceService.touchDevice now1 did dev) := by
        show (db.devices.map (DeviceService.touchDevice now1 did)).find? _ = _
        rw [DeviceService.findDevice_map_touch]
        have : db.devices.find?
            (fun d => d.connected_device_id == did && d.user_id == uid) =
            some dev := hdev
        rw [this]
        rfl
      rw [DeviceService.syncDeviceData_found _ uid did p2 now2 today _
        hdev2] at h2
      have hk1 : DeviceService.matchesKey uid did today
          (DeviceService.createRecord uid did today p1 (.fromActivity p1)
            dev.device_name now1) = true :=
        DeviceService.matchesKey_createRecord uid did today p1
          (.fromActivity p1) dev.device_name now1
      have hfind2 : (db.records ++ [DeviceService.createRecord uid did today
          p1 (.fromActivity p1) dev.device_name now1]).find?
          (DeviceService.matchesKey uid did today) =
          some (DeviceService.createRecord uid did today p1
            (.fromActivity p1) dev.device_name now1) := by
        rw [List.find?_append, hini]
        simp [List.find?_cons_of_pos _ hk1]
      rw [DeviceService.upsertRecords_of_some uid did today p2
        (.fromActivity p2)
        (DeviceService.touchDevice now1 did dev).device_name now2 _ _
        hfind2] at h2
      simp only [Except.ok.injEq, Prod.mk.injEq] at h2
      obtain ⟨hdb2, hr2⟩ := h2
      subst hdb2
      subst hr2
      refine ⟨rfl, rfl, rfl, rfl, rfl, rfl, rfl, rfl, rfl, rfl, ?_⟩
      show ((db.records ++ [DeviceService.createRecord uid did today p1
          (.fromActivity p1) dev.device_name now1]).map
          (fun r => if DeviceService.matchesKey uid did today r then
            DeviceService.mergeFields p2 (.fromActivity p2) now2 r
          else r)).filter (DeviceService.matchesKey uid did today) = _
      rw [List.map_append, map_if_of_none db.records _ _ hini]
      rw [List.map_cons, List.map_nil, if_pos hk1]
      rw [List.filter_append,
        List.filter_eq_nil_iff.mpr (List.find?_eq_none.mp hini)]
      simp [List.filter,
        DeviceService.matchesKey_mergeFields uid did today p2
          (.fromActivity p2) now2, hk1]

/-- Witness for the amended C6 at the concrete two-payload run: steps are
overwritten to P2's 9000 while the omitted heart rate retains P1's 70. -/
theorem sync_last_write_wins_witness :
    exRec26.steps = jsOrZero exP2.steps ∧
    exRec26.calories_burned = jsOrZero exP2.caloriesBurned ∧
    exRec26.active_minutes = jsOrZero exP2.activeMinutes ∧
    exRec26.bmr_estimate = jsOrZero exP2.bmr ∧
    exRec26.heart_rate_avg = prismaSet exP2.heartRate exPayload.heartRate ∧
    exRec26.weight_kg = prismaSet exP2.weight exPayload.weight ∧
    exRec26.body_fat_percentage = prismaSet exP2.bodyFat exPayload.bodyFat ∧
    exRec26.sleep_hours = prismaSet exP2.sleepHours exPayload.sleepHours ∧
    exRec26.distance_km = prismaSet exP2.distance exPayload.distance ∧
    exRec26.raw_data = .fromActivity exP2 ∧
    exDB26.records.filter (DeviceService.matchesKey 1 1 0) = [exRec26] :=
  sync_last_write_wins_amended exDB1 1 1 exPayload exP2 5 6 0 exDBSynced
    exDB26 exRecSynced exRec26 (by rfl) (by rfl) (by rfl)

/-- C8: for an owned device, `bulkSyncDeviceData` never raises however many
payload items are malformed: it behaves exactly as if the malformed items
had been removed up front — every parseable item is merged independently —
and the returned list holds one successfully merged record per parseable
item, in caller order. -/
theorem bulkSync_partial_failure_isolation (db : DB) (uid did : Nat)
    (arr : List DatedActivityData) (now : Nat) (dev : ConnectedDevice)
    (hdev : DeviceService.findDevice db did uid = some dev) :
    (DeviceService.bulkSyncDeviceData db uid did arr now).map
        (fun p => p.2.length) =
      .ok ((arr.filter (fun it => it.date.isSome)).length) ∧
    DeviceService.bulkSyncDeviceData db uid did arr now =
      DeviceService.bulkSyncDeviceData db uid did
        (arr.filter (fun it => it.date.isSome)) now := by
  constructor
  · rw [DeviceService.bulkSyncDeviceData_found db uid did arr now dev hdev]
    simp only [Except.map]
    rw [DeviceService.foldl_bulkStep_length uid did dev.device_name now arr
      (db, [])]
    simp
  · rw [DeviceService.bulkSyncDeviceData_found db uid did arr now dev hdev,
      DeviceService.bulkSyncDeviceData_found db uid did
        (arr.filter (fun it => it.date.isSome)) now dev hdev]
    rw [DeviceService.foldl_bulkStep_filter uid did dev.device_name now arr
      (db, [])]

/-- Witness for C8 on a three-item bulk payload whose middle item is
malformed: the call succeeds, two records come back, and the run equals the
run on the two parseable items. -/
theorem bulkSync_partial_failure_witness :
    (DeviceService.bulkSyncDeviceData exDB1 1 1 exBulk 7).map
        (fun p => p.2.length) =
      .ok ((exBulk.filter (fun it => it.date.isSome)).length) ∧
    DeviceService.bulkSyncDeviceData exDB1 1 1 exBulk 7 =
      DeviceService.bulkSyncDeviceData exDB1 1 1
        (exBulk.filter (fun it => it.date.isSome)) 7 :=
  bulkSync_partial_failure_isolation exDB1 1 1 exBulk 7 exDev rfl

/-- C9: a metric series shorter than two entries is always "stable";
otherwise the series splits at the floor midpoint, each half is averaged,
and the trend is increasing exactly when the second-half average exceeds the
first by more than ten percent of the first-half average, decreasing exactly
when it falls short by more than that, and stable exactly when neither
holds. The nonnegativity hypothesis reflects that window series are stored
activity metrics (steps, calories), which the data model keeps at 0 or
above; it makes the two strict criteria mutually exclusive, matching the
source's check order. -/
theorem calculateTrend_spec (values : List ℚ)
    (hnn : ∀ x ∈ values, 0 ≤ x) :
    (values.length < 2 → DeviceService.calculateTrend values = .stable) ∧
    (2 ≤ values.length →
      (DeviceService.calculateTrend values = .increasing ↔
        halfAvg (values.take (values.length / 2)) * (1/10) <
          halfAvg (values.drop (values.length / 2)) -
            halfAvg (values.take (values.length / 2))) ∧
      (DeviceService.calculateTrend values = .decreasing ↔
        halfAvg (values.drop (values.length / 2)) -
            halfAvg (values.take (values.length / 2)) <
          -(halfAvg (values.take (values.length / 2)) * (1/10))) ∧
      (DeviceService.calculateTrend values = .stable ↔
        (¬(halfAvg (values.take (values.length / 2)) * (1/10) <
            halfAvg (values.drop (values.length / 2)) -
              halfAvg (values.take (values.length / 2))) ∧
         ¬(halfAvg (values.drop (values.length / 2)) -
              halfAvg (values.take (values.length / 2)) <
            -(halfAvg (values.take (values.length / 2)) * (1/10)))))) := by
  constructor
  · intro h
    unfold DeviceService.calculateTrend
    rw [if_pos h]
  · intro h
    have hlen : ¬(values.length < 2) := not_lt.mpr h
    have hcal : DeviceService.calculateTrend values =
        (if halfAvg (values.take (values.length / 2)) * (1/10) <
            halfAvg (values.drop (values.length / 2)) -
              halfAvg (values.take (values.length / 2)) then
          Trend.increasing
         else if halfAvg (values.drop (values.length / 2)) -
              halfAvg (values.take (values.length / 2)) <
            -(halfAvg (values.take (values.length / 2)) * (1/10)) then
          Trend.decreasing
         else Trend.stable) := by
      unfold DeviceService.calculateTrend halfAvg
      rw [if_neg hlen]
      simp only [List.sum_eq_foldl]
    rw [hcal]
    set F := halfAvg (values.take (values.length / 2)) with hF
    set S := halfAvg (values.drop (values.length / 2)) with hS
    have hFnn : 0 ≤ F := by
      rw [hF]
      unfold halfAvg
      exact div_nonneg
        (List.sum_nonneg (fun x hx => hnn x (List.mem_of_mem_take hx)))
        (Nat.cast_nonneg _)
    have hthr : (0 : ℚ) ≤ F * (1/10) := by
      have : (0 : ℚ) ≤ (1/10 : ℚ) := by norm_num
      exact mul_nonneg hFnn this
    by_cases hA : F * (1/10) < S - F
    · rw [if_pos hA]
      refine ⟨iff_of_true rfl hA, iff_of_false (by simp) ?_,
        iff_of_false (by simp) (fun hc => hc.1 hA)⟩
      intro hc
      linarith
    · rw [if_neg hA]
      by_cases hB : S - F < -(F * (1/10))
      · rw [if_pos hB]
        exact ⟨iff_of_false (by simp) hA, iff_of_true rfl hB,
          iff_of_false (by simp) (fun hc => hc.2 hB)⟩
      · rw [if_neg hB]
        exact ⟨iff_of_false (by simp) hA, iff_of_false (by simp) hB,
          iff_of_true rfl ⟨hA, hB⟩⟩

/-- Witness for C9 at the spec's own examples: a half-to-half jump from 1000
to 2000 is increasing, a flat pair is stable, and a singleton is stable. -/
theorem calculateTrend_spec_witness :
    DeviceService.calculateTrend [1000, 1000, 1000, 2000, 2000, 2000] =
      .increasing ∧
    DeviceService.calculateTrend ([1000, 1000] : List ℚ) = .stable ∧
    DeviceService.calculateTrend ([1000] : List ℚ) = .stable := by
  refine ⟨?_, ?_, ?_⟩
  · exact (((calculateTrend_spec [1000, 1000, 1000, 2000, 2000, 2000]
      (by decide)).2 (by decide)).1).mpr (by decide)
  · exact (((calculateTrend_spec [1000, 1000] (by decide)).2
      (by decide)).2.2).mpr ⟨by decide, by decide⟩
  · exact (calculateTrend_spec [1000] (by decide)).1 (by decide)

/-- C10: `updateDeviceTokens` with an omitted access token leaves the stored
encrypted access token and the token expiry of every row unchanged, and with
an omitted refresh token leaves the stored encrypted refresh token
unchanged; on the matched row only the update timestamp is always set, and
rows of other devices or owners are untouched entirely. -/
theorem updateDeviceTokens_frame (db : DB) (uid did : Nat)
    (accessToken refreshToken : Option String) (now : Nat) (i : Nat)
    (d d2 : ConnectedDevice)
    (hd : db.devices[i]? = some d)
    (hd2 : (DeviceService.updateDeviceTokens db uid did accessToken
      refreshToken now).devices[i]? = some d2) :
    (accessToken = none →
      d2.access_token_encrypted = d.access_token_encrypted ∧
      d2.token_expires_at = d.token_expires_at) ∧
    (refreshToken = none →
      d2.refresh_token_encrypted = d.refresh_token_encrypted) ∧
    ((d.connected_device_id == did && d.user_id == uid) = true →
      d2.updated_at = now) ∧
    ((d.connected_device_id == did && d.user_id == uid) = false →
      d2 = d) := by
  unfold DeviceService.updateDeviceTokens at hd2
  rw [List.getElem?_map, hd] at hd2
  simp only [Option.map_some', Option.some.injEq] at hd2
  subst hd2
  by_cases hm : (d.connected_device_id == did && d.user_id == uid) = true
  · rw [if_pos hm]
    refine ⟨?_, ?_, fun _ => rfl, fun hc => absurd hm (by rw [hc]; simp)⟩
    · intro ha
      subst ha
      exact ⟨rfl, rfl⟩
    · intro hr
      subst hr
      rfl
  · rw [if_neg hm]
    exact ⟨fun _ => ⟨rfl, rfl⟩, fun _ => rfl,
      fun hc => absurd hc hm, fun _ => rfl⟩

/-- Witness for C10: updating with both tokens omitted bumps only the
matched row's update timestamp and leaves all token material unchanged. -/
theorem updateDeviceTokens_frame_witness :
    (((none : Option String) = none) →
      exDevTok.access_token_encrypted = exDev.access_token_encrypted ∧
      exDevTok.token_expires_at = exDev.token_expires_at) ∧
    (((none : Option String) = none) →
      exDevTok.refresh_token_encrypted = exDev.refresh_token_encrypted) ∧
    ((exDev.connected_device_id == 1 && exDev.user_id == 1) = true →
      exDevTok.updated_at = 99) ∧
    ((exDev.connected_device_id == 1 && exDev.user_id == 1) = false →
      exDevTok = exDev) :=
  updateDeviceTokens_frame exDB1 1 1 none none 99 0 exDev exDevTok rfl rfl

/-! Preservation of the registry-uniqueness invariant. -/

/-- Filter counts survive a map that does not disturb the predicate. -/
theorem length_filter_map_eq {α : Type} (l : List α) (f : α → α)
    (p : α → Bool) (hp : ∀ x, p (f x) = p x) :
    ((l.map f).filter p).length = (l.filter p).length := by
  induction l with
  | nil => rfl
  | cons x xs ih =>
      cases hx : p x
      · have hfx : p (f x) = false := by rw [hp x, hx]
        simp [List.filter_cons, hx, hfx, ih]
      · have hfx : p (f x) = true := by rw [hp x, hx]
        simp [List.filter_cons, hx, hfx, ih]

/-- In-place row updates that keep owner and device type preserve the
registry invariant. -/
theorem DevListUnique_map (l : List ConnectedDevice)
    (f : ConnectedDevice → ConnectedDevice)
    (hu : ∀ x, (f x).user_id = x.user_id)
    (ht : ∀ x, (f x).device_type = x.device_type)
    (h : DevListUnique l) : DevListUnique (l.map f) := by
  intro uid dtype
  rw [length_filter_map_eq l f _ (fun x => by rw [hu x, ht x])]
  exact h uid dtype

/-- Appending a row whose (owner, device-type) pair was just checked absent
preserves the registry invariant. -/
theorem DevListUnique_append (l : List ConnectedDevice)
    (nd : ConnectedDevice) (uid : Nat) (dtype : String)
    (hu : nd.user_id = uid) (ht : nd.device_type = dtype)
    (hfind : l.find?
      (fun d => d.user_id == uid && d.device_type == dtype) = none)
    (h : DevListUnique l) : DevListUnique (l ++ [nd]) := by
  intro uid2 dtype2
  rw [List.filter_append]
  by_cases hnd : (nd.user_id == uid2 && nd.device_type == dtype2) = true
  · have hpair : uid2 = uid ∧ dtype2 = dtype := by
      simp only [Bool.and_eq_true, beq_iff_eq] at hnd
      exact ⟨hnd.1 ▸ hu.symm ▸ rfl, hnd.2 ▸ ht.symm ▸ rfl⟩
    have hnil : l.filter
        (fun d => d.user_id == uid2 && d.device_type == dtype2) = [] := by
      rw [List.filter_eq_nil_iff]
      intro x hx
      have hnot := List.find?_eq_none.mp hfind x hx
      rw [hpair.1, hpair.2]
      exact hnot
    rw [hnil]
    simp [List.filter_cons, hnd]
  · rw [show ([nd].filter
        (fun d => d.user_id == uid2 && d.device_type == dtype2)) = []
      from by simp [List.filter_cons, hnd]]
    rw [List.append_nil]
    exact h uid2 dtype2

/-- The post-sync touch keeps the device type. -/
theorem touchDevice_type (now did : Nat) (x : ConnectedDevice) :
    (DeviceService.touchDevice now did x).device_type = x.device_type := by
  unfold DeviceService.touchDevice
  split <;> rfl

/-- An invariant preserved by every step is preserved by the fold. -/
theorem foldl_preserve {α β : Type} (P : α → Prop) (f : α → β → α)
    (hf : ∀ a b, P a → P (f a b)) :
    ∀ (l : List β) (a : α), P a → P (l.foldl f a) := by
  intro l
  induction l with
  | nil => intro a ha; exact ha
  | cons x xs ih => intro a ha; exact ih _ (hf a x ha)

/-- The bulk loop body never touches the device table. -/
theorem bulkStep_devices (uid did : Nat) (s : String) (now : Nat)
    (acc : DB × List ActivityRecord) (x : DatedActivityData) :
    (DeviceService.bulkStep uid did s now acc x).1.devices =
      acc.1.devices := by
  unfold DeviceService.bulkStep
  cases hx : x.date
  · rfl
  · rfl

/-- The whole bulk fold never touches the device table. -/
theorem foldl_bulkStep_devices (uid did : Nat) (s : String) (now : Nat) :
    ∀ (arr : List DatedActivityData) (acc : DB × List ActivityRecord),
      ((arr.foldl (DeviceService.bulkStep uid did s now) acc).1).devices =
        acc.1.devices := by
  intro arr
  induction arr with
  | nil => intro acc; rfl
  | cons x xs ih =>
      intro acc
      rw [List.foldl_cons, ih, bulkStep_devices]

/-- The HealthKit ledger save never touches the device table. -/
theorem saveHealthData_devices (db : DB) (uid did : Nat)
    (hk : HealthKitData) (now : Nat) :
    (HealthKitService.saveHealthData db uid did hk now).1.devices =
      db.devices := by
  unfold HealthKitService.saveHealthData
  cases hf : db.records.find? (DeviceService.matchesKey uid did hk.date)
  · rfl
  · rfl

/-- The tail of `syncWithDevice` never touches the device table. -/
theorem hkFinish_devices (db1 : DB) (device : ConnectedDevice) (uid : Nat)
    (dd : DeviceSyncData) (now : Nat) :
    (HealthKitService.hkFinish db1 device uid dd now).1.devices =
      db1.devices := by
  unfold HealthKitService.hkFinish
  cases hd : dd.date <;> cases hs : dd.steps <;>
    simp [saveHealthData_devices]

/-- A successful single-device sync preserves the registry invariant. -/
theorem syncDeviceData_ok_unique (db : DB) (uid did : Nat)
    (a : ActivityData) (now : Nat) (today : Int) (db2 : DB)
    (r : ActivityRecord)
    (hok : DeviceService.syncDeviceData db uid did a now today =
      .ok (db2, r))
    (h : DeviceUnique db) : DeviceUnique db2 := by
  cases hdev : DeviceService.findDevice db did uid with
  | none =>
      rw [DeviceService.syncDeviceData_not_found db uid did a now today
        hdev] at hok
      exact absurd hok (by simp)
  | some dev =>
      rw [DeviceService.syncDeviceData_found db uid did a now today dev
        hdev] at hok
      simp only [Except.ok.injEq, Prod.mk.injEq] at hok
      obtain ⟨hdb, _⟩ := hok
      subst hdb
      exact DevListUnique_map db.devices _
        (DeviceService.touchDevice_user now did)
        (touchDevice_type now did) h

/-- The seven-day backfill preserves the registry invariant. -/
theorem performInitialSync_unique (db : DB) (uid did : Nat) (t : String)
    (samples : Nat → ActivityData) (now : Nat) (today : Int)
    (h : DeviceUnique db) :
    DeviceUnique
      (DeviceService.performInitialSync db uid did t samples now today) := by
  apply foldl_preserve DeviceUnique _ ?_ _ db h
  intro acc ie ha
  cases hs : DeviceService.syncDeviceData acc uid did (samples ie.1) now
      today with
  | error e =>
      simp only [hs]
      exact ha
  | ok res =>
      simp only [hs]
      exact syncDeviceData_ok_unique acc uid did (samples ie.1) now today
        res.1 res.2 hs ha

/-- A successful bulk sync preserves the registry invariant. -/
theorem bulkSyncDeviceData_ok_unique (db : DB) (uid did : Nat)
    (arr : List DatedActivityData) (now : Nat) (db2 : DB)
    (res : List ActivityRecord)
    (hok : DeviceService.bulkSyncDeviceData db uid did arr now =
      .ok (db2, res))
    (h : DeviceUnique db) : DeviceUnique db2 := by
  cases hdev : DeviceService.findDevice db did uid with
  | none =>
      unfold DeviceService.bulkSyncDeviceData at hok
      rw [hdev] at hok
      exact absurd hok (by simp)
  | some dev =>
      rw [DeviceService.bulkSyncDeviceData_found db uid did arr now dev
        hdev] at hok
      simp only [Except.ok.injEq, Prod.mk.injEq] at hok
      obtain ⟨hdb, _⟩ := hok
      subst hdb
      unfold DeviceUnique
      rw [show ({ (arr.foldl (DeviceService.bulkStep uid did dev.device_name
          now) (db, [])).1 with
          devices := ((arr.foldl (DeviceService.bulkStep uid did
            dev.device_name now) (db, [])).1.devices).map
            (DeviceService.touchDevice now did) } : DB).devices =
        ((arr.foldl (DeviceService.bulkStep uid did dev.device_name now)
          (db, [])).1.devices).map (DeviceService.touchDevice now did)
        from rfl]
      rw [foldl_bulkStep_devices]
      exact DevListUnique_map db.devices _
        (DeviceService.touchDevice_user now did)
        (touchDevice_type now did) h

/-- A successful connect preserves the registry invariant. -/
theorem connectDevice_ok_unique (db : DB) (uid : Nat) (t n : String)
    (tok1 tok2 : Option String) (samples : Nat → ActivityData) (now : Nat)
    (today : Int) (db2 : DB) (dev2 : ConnectedDevice)
    (hok : DeviceService.connectDevice db uid t n tok1 tok2 samples now
      today = .ok (db2, dev2))
    (h : DeviceUnique db) : DeviceUnique db2 := by
  unfold DeviceService.connectDevice at hok
  by_cases hv : (!(DeviceService.validDeviceTypes.contains t)) = true
  · rw [if_pos hv] at hok
    exact absurd hok (by simp)
  · rw [if_neg hv] at hok
    cases hfind : db.devices.find?
        (fun d => d.user_id == uid && d.device_type == t) with
    | some existing =>
        rw [hfind] at hok
        simp only [Except.ok.injEq, Prod.mk.injEq] at hok
        obtain ⟨hdb, _⟩ := hok
        subst hdb
        apply performInitialSync_unique
        exact DevListUnique_map db.devices _
          (fun x => by split <;> rfl)
          (fun x => by split <;> rfl) h
    | none =>
        rw [hfind] at hok
        simp only [Except.ok.injEq, Prod.mk.injEq] at hok
        obtain ⟨hdb, _⟩ := hok
        subst hdb
        apply performInitialSync_unique
        exact DevListUnique_append db.devices _ uid t rfl rfl hfind h

/-- A successful disconnect preserves the registry invariant. -/
theorem disconnectDevice_ok_unique (db : DB) (uid did : Nat) (now : Nat)
    (db2 : DB)
    (hok : DeviceService.disconnectDevice db uid did now = .ok db2)
    (h : DeviceUnique db) : DeviceUnique db2 := by
  unfold DeviceService.disconnectDevice at hok
  cases hdev : DeviceService.findDevice db did uid with
  | none =>
      rw [hdev] at hok
      exact absurd hok (by simp)
  | some dev =>
      rw [hdev] at hok
      simp only [Except.ok.injEq] at hok
      subst hok
      exact DevListUnique_map db.devices _
        (fun x => by split <;> rfl)
        (fun x => by split <;> rfl) h

/-- A token update preserves the registry invariant. -/
theorem updateDeviceTokens_unique (db : DB) (uid did : Nat)
    (tok1 tok2 : Option String) (now : Nat) (h : DeviceUnique db) :
    DeviceUnique
      (DeviceService.updateDeviceTokens db uid did tok1 tok2 now) :=
  DevListUnique_map db.devices _
    (fun x => by split <;> rfl)
    (fun x => by split <;> rfl) h

/-- A HealthKit device sync preserves the registry invariant. -/
theorem syncWithDevice_unique (db : DB) (uid : Nat) (t : String)
    (dd : DeviceSyncData) (now : Nat) (h : DeviceUnique db) :
    DeviceUnique (HealthKitService.syncWithDevice db uid t dd now).1 := by
  unfold HealthKitService.syncWithDevice
  cases hfind : db.devices.find?
      (fun d => d.user_id == uid && d.device_type == t) with
  | some existing =>
      unfold DeviceUnique
      rw [hkFinish_devices]
      exact DevListUnique_map db.devices _
        (fun x => by split <;> rfl)
        (fun x => by split <;> rfl) h
  | none =>
      unfold DeviceUnique
      rw [hkFinish_devices]
      exact DevListUnique_append db.devices _ uid t rfl rfl hfind h

/-- Every operation preserves the registry invariant. -/
theorem applyOp_unique (db : DB) (op : Op) (h : DeviceUnique db) :
    DeviceUnique (applyOp db op) := by
  cases op with
  | connect uid t n tok1 tok2 samples now today =>
      simp only [applyOp]
      cases hc : DeviceService.connectDevice db uid t n tok1 tok2 samples
          now today with
      | error e => exact h
      | ok res =>
          exact connectDevice_ok_unique db uid t n tok1 tok2 samples now
            today res.1 res.2 hc h
  | disconnect uid did now =>
      simp only [applyOp]
      cases hc : DeviceService.disconnectDevice db uid did now with
      | error e => exact h
      | ok db2 => exact disconnectDevice_ok_unique db uid did now db2 hc h
  | syncOne uid did a now today =>
      simp only [applyOp]
      cases hc : DeviceService.syncDeviceData db uid did a now today with
      | error e => exact h
      | ok res =>
          exact syncDeviceData_ok_unique db uid did a now today res.1 res.2
            hc h
  | bulkSync uid did arr now =>
      simp only [applyOp]
      cases hc : DeviceService.bulkSyncDeviceData db uid did arr now with
      | error e => exact h
      | ok res =>
          exact bulkSyncDeviceData_ok_unique db uid did arr now res.1 res.2
            hc h
  | updateTokens uid did tok1 tok2 now =>
      exact updateDeviceTokens_unique db uid did tok1 tok2 now h
  | hkSync uid t dd now => exact syncWithDevice_unique db uid t dd now h

/-- C7: after any sequence of connect, disconnect, sync, bulk-sync,
token-update and HealthKit-sync operations on a store satisfying the
registry invariant, there is still at most one Device row per (owner,
device-type) pair — reconnecting an existing type updates the row in place,
and both creation paths are guarded by an absence check on the pair. -/
theorem device_registry_unique (db : DB) (ops : List Op)
    (h : DeviceUnique db) : DeviceUnique (runOps db ops) :=
  foldl_preserve DeviceUnique applyOp applyOp_unique ops db h

/-- Witness for C7: connecting FITBIT twice for the same user, syncing, and
a HealthKit sync of the same type, starting from an empty store. -/
theorem device_registry_unique_witness :
    DeviceUnique (runOps emptyDB
      [Op.connect 1 "FITBIT" "A" none none exSamples 1 0,
       Op.connect 1 "FITBIT" "B" none none exSamples 2 0,
       Op.syncOne 1 0 exPayload 3 0,
       Op.hkSync 1 "FITBIT"
         { date := some 0, steps := some 500, caloriesBurned := none,
           activeMinutes := none, heartRate := none, weight := none,
           distance := none } 4]) :=
  device_registry_unique _ _ (fun uid dtype => Nat.zero_le 1)

end Calo
